import Mathlib

/-!
Verification of the `snow_api` module (src/_modules/snow_api.py), a thin
shim over the pysnow client for a ServiceNow-style table API.

Embedding choices:
* A remote `Record` is an association list from field names to values
  (records are opaque to the module; only equality filtering on fields is
  needed).  A remote table is the ordered list of its records, in the
  order the remote system yields them when streamed.
* A query filter (Python `**kwargs` / a dict) is an association list of
  `(field, value)` pairs combined with AND semantics, as the glossary of
  the spec states.
* The pysnow client itself is not part of this repository, so the parts
  of its `Response` API the module calls (`one_or_none`, `first`, `all`
  streaming, `update(...).one()`, truthiness) are modelled from the
  spec's description of the module's behaviour; each such definition
  carries a doc comment saying so.
* Python-level failures are modelled with an explicit error type
  `SnowError` and `Except` results: `MultipleResults` (pysnow's
  ambiguous-match error, the spec's AmbiguousResult), `IndexError`
  (indexing past the end of the `split('=')` result) and `ValueError`
  (`itertools.islice` rejecting a negative stop).
-/

namespace SnowApi

/-- Python error kinds the module can surface, per the spec's taxonomy:
`multipleResults` is pysnow's ambiguous-match error (spec: AmbiguousResult),
`indexError` is Python's IndexError from `query_parts[1]`,
`valueError` is Python's ValueError from `islice` on a negative stop. -/
inductive SnowError where
  | multipleResults
  | indexError
  | valueError
  deriving DecidableEq, Repr

deriving instance DecidableEq for Except

/-- A remote record: an association list from field name to field value. -/
abbrev Record := List (String × String)

/-- A query filter: `(field, value)` pairs combined with AND semantics. -/
abbrev Query := List (String × String)

/-- A remote table: its records in the order the remote system streams them. -/
abbrev Table := List Record

/-- Field access on a record (first binding wins, as in a dict). -/
def getField (r : Record) (f : String) : Option String :=
  r.lookup f

/-- Equality-conjunction filter semantics: a record matches a query when
every `(field, value)` pair of the query holds of the record. -/
def matchesQuery (q : Query) (r : Record) : Bool :=
  q.all (fun kv => getField r kv.1 == some kv.2)

/-- Embeds `_get_response(tablename, **kwargs)`: the stream of records of
the table that match the query, in remote order.  The pysnow
`Response` with `stream=True` is modelled as this match list. -/
def get_response (t : Table) (kwargs : Query) : List Record :=
  t.filter (matchesQuery kwargs)

/-- Modelled from the spec: pysnow `Response.one_or_none` (pysnow is not in
src/).  Spec 4.2: returns the single matching record, a null result when
none match, and fails with an ambiguity error when two or more match. -/
def one_or_none (resp : List Record) : Except SnowError (Option Record) :=
  match resp with
  | [] => .ok none
  | [r] => .ok (some r)
  | _ => .error .multipleResults

/-- Embeds `get_record(tablename, **kwargs)`:
`_get_response(tablename, **kwargs).one_or_none()`. -/
def get_record (t : Table) (kwargs : Query) : Except SnowError (Option Record) :=
  one_or_none (get_response t kwargs)

/-- Models Python `itertools.islice(it, stop)` materialised by `list(...)`:
a negative stop raises ValueError; otherwise the first `stop` items of the
stream are taken, without consuming the stream past them. -/
def pyIslice (stop : Int) (xs : List Record) : Except SnowError (List Record) :=
  if stop < 0 then .error .valueError
  else .ok (xs.take stop.toNat)

/-- Embeds `get_records(tablename, max_results=10, **kwargs)`:
`list(islice(response.all(), max_results))` over the streamed response.
The Python default for `max_results` is 10. -/
def get_records (t : Table) (max_results : Int) (kwargs : Query) :
    Except SnowError (List Record) :=
  pyIslice max_results (get_response t kwargs)

/-- Models Python `str.split(sep)` for a one-character separator, on the
character list of the string: splits at every occurrence of `c`, so
`"a=b=c".split('=') = ["a", "b", "c"]` and a string without the separator
yields the one-element list holding the whole string. -/
def splitOnChar (c : Char) : List Char → List (List Char)
  | [] => [[]]
  | x :: xs =>
    if x = c then [] :: splitOnChar c xs
    else
      match splitOnChar c xs with
      | [] => [[x]]
      | y :: ys => (x :: y) :: ys

/-- Models Python `query_string.split('=')` on Lean strings. -/
def pySplitEq (s : String) : List String :=
  (splitOnChar '=' s.data).map List.asString

/-- Embeds lines 101-102 of `update_record`:
`query_parts = query_string.split('='); query = {query_parts[0]: query_parts[1]}`.
Returns `none` when `query_parts[1]` would raise IndexError, i.e. when the
split has fewer than two parts. -/
def updateQuery (query_string : String) : Option (String × String) :=
  let query_parts := pySplitEq query_string
  match query_parts.get? 0, query_parts.get? 1 with
  | some k, some v => some (k, v)
  | _, _ => none

/-- Sets one field of a record, replacing any existing binding. -/
def setField (r : Record) (k v : String) : Record :=
  (k, v) :: r.filter (fun kv => !(kv.1 == k))

/-- Modelled from the spec: applying an update payload to a record as a
partial update (spec 4.4) — every field in the payload is set on the
record, all other fields are kept. -/
def applyPayload (payload : Query) (r : Record) : Record :=
  payload.foldl (fun acc kv => setField acc kv.1 kv.2) r

/-- The remote table after an update call: every record matching the query
has the payload applied (in the single-match case this is the one record). -/
def applyUpdate (t : Table) (q : Query) (payload : Query) : Table :=
  t.map (fun r => if matchesQuery q r then applyPayload payload r else r)

/-- Modelled from the spec: the remote update step of `update_record`
(`record.update(payload=payload).one()` on a pysnow response; pysnow is
not in src/).  Spec 4.4: a zero-match filter is a no-op returning a null
result and performing no remote update call; with exactly one match the
payload is applied as a partial update and the updated record returned;
more than one match is the ambiguous-match error.  The result pairs the
returned value with the remote table state after the call. -/
def updateWithQuery (t : Table) (k v : String) (payload : Query) :
    Except SnowError (Option Record × Table) :=
  match get_response t [(k, v)] with
  | [] => .ok (none, t)
  | [r] => .ok (some (applyPayload payload r), applyUpdate t [(k, v)] payload)
  | _ => .error .multipleResults

/-- Embeds `update_record(tablename, query_string, **payload)`: parse the
query string, then look up and update. -/
def update_record (t : Table) (query_string : String) (payload : Query) :
    Except SnowError (Option Record × Table) :=
  match updateQuery query_string with
  | none => .error .indexError
  | some (k, v) => updateWithQuery t k v payload

/-- Embeds `get_incident(incident_number, key='number')`:
`incident.get(query={key: incident_number}, stream=True).first()`, fixed to
the incident table.  Modelled from the spec: pysnow `Response.first`
(pysnow is not in src/) returns the first match, and per spec 4.5 / 7 the
zero-match case is a null result. -/
def get_incident (incidentTable : Table) (incident_number : String)
    (key : String) : Option Record :=
  (get_response incidentTable [(key, incident_number)]).head?

/-- Truthiness of a `config.get` result, as Python `if not value` sees it:
an absent value or an empty string is falsy. -/
def configFalsy : Option String → Bool
  | none => true
  | some s => s.isEmpty

/-- Embeds `__virtual__()`: checks the three required configuration values
and the availability of the pysnow dependency; returns the virtual module
name `"snow"` when all hold and `none` (Python `False`, module disabled)
otherwise.  `config_get` is the host's `config.get`; no table or network
state is consulted. -/
def __virtual__ (config_get : String → Option String)
    (pysnow_exists : Bool) : Option String :=
  let virtual_return :=
    ["username", "password", "instance"].foldl
      (fun acc k =>
        if configFalsy (config_get ("service_now:" ++ k)) then none else acc)
      (some "snow")
  if pysnow_exists then virtual_return else none

/-- The payload lookup that matters for `applyPayload`: the last binding of
a key in the payload wins (Python keyword arguments carry each key once, so
this coincides with plain lookup there). -/
def lookupLast (payload : Query) (f : String) : Option String :=
  payload.reverse.lookup f

/-- The head of a character split is the longest prefix free of the
separator. -/
theorem splitOnChar_head (c : Char) (l : List Char) :
    (splitOnChar c l).head? = some (l.takeWhile (fun x => x != c)) := by
  induction l with
  | nil => rfl
  | cons x xs ih =>
    by_cases hx : x = c
    · subst hx
      simp [splitOnChar, List.takeWhile]
    · rcases hsp : splitOnChar c xs with _ | ⟨y, ys⟩
      · rw [hsp] at ih; simp at ih
      · rw [hsp] at ih
        simp only [List.head?, Option.some.injEq] at ih
        have hbx : (x != c) = true := by simp [hx]
        simp [splitOnChar, hx, hsp, List.takeWhile, ih, hbx]

/-- Splitting a list that does not contain the separator yields the whole
list as the single part (Python: `"abc".split('=') == ["abc"]`). -/
theorem splitOnChar_no_sep (c : Char) (l : List Char) (h : c ∉ l) :
    splitOnChar c l = [l] := by
  induction l with
  | nil => rfl
  | cons x xs ih =>
    have hx : ¬x = c := fun he => h (he ▸ List.mem_cons_self x xs)
    have hxs : c ∉ xs := fun hm => h (List.mem_cons_of_mem x hm)
    simp [splitOnChar, hx, ih hxs]

/-- Splitting a list that contains the separator: the first part is the
text before the first separator and the second part is the text between
the first separator and the next one (or the end). -/
theorem splitOnChar_mem (c : Char) (l : List Char) (h : c ∈ l) :
    ∃ rest, splitOnChar c l
      = (l.takeWhile (fun x => x != c))
        :: ((l.dropWhile (fun x => x != c)).tail.takeWhile (fun x => x != c))
        :: rest := by
  induction l with
  | nil => cases h
  | cons x xs ih =>
    by_cases hx : x = c
    · subst hx
      rcases hsp : splitOnChar x xs with _ | ⟨y, ys⟩
      · have hh := splitOnChar_head x xs
        rw [hsp] at hh
        simp at hh
      · have hh := splitOnChar_head x xs
        rw [hsp] at hh
        simp only [List.head?, Option.some.injEq] at hh
        refine ⟨ys, ?_⟩
        simp [splitOnChar, hsp, hh, List.takeWhile, List.dropWhile]
    · have hmem : c ∈ xs := by
        rcases List.mem_cons.mp h with h1 | h1
        · exact absurd h1.symm hx
        · exact h1
      obtain ⟨rest, hrest⟩ := ih hmem
      refine ⟨rest, ?_⟩
      have hbx : (x != c) = true := by simp [hx]
      simp [splitOnChar, hx, hrest, List.takeWhile, List.dropWhile, hbx]

/-- Lookup skips over entries removed by filtering out a different key. -/
theorem lookup_filter_ne (r : Record) (k f : String) (hf : f ≠ k) :
    (r.filter (fun kv => !(kv.1 == k))).lookup f = r.lookup f := by
  induction r with
  | nil => rfl
  | cons p ps ih =>
    obtain ⟨a, b⟩ := p
    cases hfa : (f == a) with
    | false =>
      cases hak : (a == k) <;>
        simp [List.filter_cons, hak, List.lookup, hfa, ih]
    | true =>
      have hfa2 : f = a := by simpa using hfa
      have hak : (a == k) = false := by
        simp only [beq_eq_false_iff_ne, ne_eq]
        exact fun he => hf (hfa2.trans he)
      simp [List.filter_cons, hak, List.lookup, hfa]

/-- Observational behaviour of `setField`: the set key reads back the new
value, every other key is unchanged. -/
theorem getField_setField (r : Record) (k v f : String) :
    getField (setField r k v) f = if f = k then some v else getField r f := by
  by_cases hf : f = k
  · subst hf
    simp [setField, getField, List.lookup]
  · have hfk : (f == k) = false := beq_eq_false_iff_ne.mpr hf
    simp [setField, getField, List.lookup, hf, hfk,
      lookup_filter_ne r k f hf]

/-- Lookup distributes over append, preferring the left list. -/
theorem lookup_append (l1 l2 : List (String × String)) (f : String) :
    (l1 ++ l2).lookup f = (l1.lookup f).or (l2.lookup f) := by
  induction l1 with
  | nil => simp [List.lookup]
  | cons p ps ih =>
    obtain ⟨a, b⟩ := p
    cases hfa : (f == a) <;> simp [List.lookup, hfa, ih]

/-- Observational behaviour of `applyPayload`: a field set by the payload
reads back the payload's (last) value, any other field keeps the record's
value. -/
theorem getField_applyPayload (payload : Query) (r : Record) (f : String) :
    getField (applyPayload payload r) f
      = (lookupLast payload f).or (getField r f) := by
  induction payload generalizing r with
  | nil => simp [applyPayload, lookupLast, List.lookup]
  | cons kv p ih =>
    obtain ⟨k, v⟩ := kv
    have hstep : applyPayload ((k, v) :: p) r = applyPayload p (setField r k v) := rfl
    have hl : lookupLast ((k, v) :: p) f
        = (lookupLast p f).or (List.lookup f [(k, v)]) := by
      simp only [lookupLast, List.reverse_cons, lookup_append]
    rw [hstep, ih, getField_setField, hl]
    cases lookupLast p f with
    | some w => simp
    | none =>
      by_cases hf : f = k
      · subst hf; simp [List.lookup]
      · have hfk : (f == k) = false := beq_eq_false_iff_ne.mpr hf
        simp [List.lookup, hfk, hf]

/-- C1: for every filter, `get_record` returns the single matching record
when exactly one record matches, returns a null result when zero records
match, and raises the ambiguous-match error (distinct from a null result)
when two or more records match. -/
theorem get_record_one_none_or_ambiguous (t : Table) (q : Query) :
    (get_response t q = [] → get_record t q = .ok none) ∧
    (∀ r, get_response t q = [r] → get_record t q = .ok (some r)) ∧
    (2 ≤ (get_response t q).length → get_record t q = .error .multipleResults) := by
  refine ⟨fun h => by simp [get_record, h, one_or_none],
    fun r h => by simp [get_record, h, one_or_none], fun h => ?_⟩
  rcases hresp : get_response t q with _ | ⟨a, _ | ⟨b, l⟩⟩
  · rw [hresp] at h; simp at h
  · rw [hresp] at h; simp at h
  · simp [get_record, hresp, one_or_none]

/-- Witness for C1 on concrete tables with zero, one and two matches. -/
theorem get_record_one_none_or_ambiguous_witness :
    get_record [] [("number", "INC23301")] = .ok none ∧
    get_record [[("number", "INC23301")]] [("number", "INC23301")]
      = .ok (some [("number", "INC23301")]) ∧
    get_record [[("number", "INC23301")], [("number", "INC23301")]]
      [("number", "INC23301")] = .error .multipleResults :=
  ⟨(get_record_one_none_or_ambiguous [] [("number", "INC23301")]).1 (by decide),
    (get_record_one_none_or_ambiguous _ _).2.1 _ (by decide),
    (get_record_one_none_or_ambiguous _ _).2.2 (by decide)⟩

/-- C3: for every `max_results = n ≥ 0`, `get_records` returns exactly
`min n m` records (`m` the number of matches), they are the first `n`
matches in remote order, and the result depends only on the first `n`
items of the remote match stream (no iteration past the `n`-th item). -/
theorem get_records_takes_min (t : Table) (kwargs : Query) (n : Int) (h : 0 ≤ n) :
    get_records t n kwargs = .ok ((get_response t kwargs).take n.toNat) ∧
    ((get_response t kwargs).take n.toNat).length
      = min n.toNat (get_response t kwargs).length ∧
    (∀ t2, (get_response t2 kwargs).take n.toNat = (get_response t kwargs).take n.toNat →
      get_records t2 n kwargs = get_records t n kwargs) := by
  have hlt : ¬n < 0 := not_lt.mpr h
  refine ⟨by simp [get_records, pyIslice, hlt], List.length_take _ _, fun t2 h2 => ?_⟩
  simp [get_records, pyIslice, hlt, h2]

/-- Witness for C3: three records, two matches, `max_results = 2`. -/
theorem get_records_takes_min_witness :
    get_records [[("stage", "a")], [("stage", "b")], [("stage", "a")]] 2 [("stage", "a")]
      = .ok ((get_response [[("stage", "a")], [("stage", "b")], [("stage", "a")]]
          [("stage", "a")]).take (2 : Int).toNat) :=
  (get_records_takes_min _ _ 2 (by decide)).1

/-- C10: for every negative `max_results`, `get_records` raises the
ValueError that `islice` produces for a negative stop, rather than
returning an empty or full list. -/
theorem get_records_negative_max_results (t : Table) (kwargs : Query)
    (n : Int) (h : n < 0) :
    get_records t n kwargs = .error .valueError := by
  simp [get_records, pyIslice, h]

/-- Witness for C10 at `max_results = -1`. -/
theorem get_records_negative_max_results_witness :
    get_records [] (-1) [] = .error .valueError :=
  get_records_negative_max_results [] [] (-1) (by decide)

/-- C5: when zero records in the incident table match `(key, incident_number)`,
`get_incident` returns a null result (no exception: the embedding is a
total function into `Option Record`). -/
theorem get_incident_zero_matches_none (t : Table)
    (incident_number key : String)
    (h : get_response t [(key, incident_number)] = []) :
    get_incident t incident_number key = none := by
  simp [get_incident, h]

/-- Witness for C5 on an empty incident table. -/
theorem get_incident_zero_matches_none_witness :
    get_incident [] "INC23301" "number" = none :=
  get_incident_zero_matches_none [] "INC23301" "number" (by decide)

/-- C6: when two or more records in the incident table match, `get_incident`
returns the first matching record in remote order, without any ambiguity
error (unlike `get_record`). -/
theorem get_incident_multiple_matches_first (t : Table)
    (incident_number key : String) (r1 r2 : Record) (rs : List Record)
    (h : get_response t [(key, incident_number)] = r1 :: r2 :: rs) :
    get_incident t incident_number key = some r1 := by
  simp [get_incident, h]

/-- Witness for C6: two incidents share the same number; the first is
returned. -/
theorem get_incident_multiple_matches_first_witness :
    get_incident [[("number", "INC23301"), ("id", "1")],
        [("number", "INC23301"), ("id", "2")]] "INC23301" "number"
      = some [("number", "INC23301"), ("id", "1")] :=
  get_incident_multiple_matches_first _ "INC23301" "number"
    [("number", "INC23301"), ("id", "1")] [("number", "INC23301"), ("id", "2")]
    [] (by decide)

/-- C8: if any one of the three required configuration values is absent or
empty, `__virtual__` reports the module unavailable (`none`), whatever the
other values and whether pysnow loaded; `__virtual__` consults only the
configuration store, never any table state. -/
theorem virtual_missing_config_disables (config_get : String → Option String)
    (pysnow_exists : Bool)
    (h : ∃ k ∈ (["username", "password", "instance"] : List String),
      configFalsy (config_get ("service_now:" ++ k)) = true) :
    __virtual__ config_get pysnow_exists = none := by
  obtain ⟨k, hk, hfalsy⟩ := h
  cases pysnow_exists
  · simp [__virtual__]
  · fin_cases hk <;> simp at hfalsy <;> simp [__virtual__, hfalsy]

/-- Witness for C8 with an empty configuration store. -/
theorem virtual_missing_config_disables_witness :
    __virtual__ (fun _ => none) true = none :=
  virtual_missing_config_disables (fun _ => none) true
    ⟨"username", by simp, rfl⟩

/-- The query pair `update_record` builds from a string containing the
separator, characterised independently of the split function: the key is
the text before the first `=` and the value is the text between the first
`=` and the next `=` (or the end of the string). -/
theorem updateQuery_mem_eq (s : String) (h : '=' ∈ s.data) :
    updateQuery s
      = some ((s.data.takeWhile (fun x => x != '=')).asString,
        ((s.data.dropWhile (fun x => x != '=')).tail.takeWhile
          (fun x => x != '=')).asString) := by
  obtain ⟨rest, hsp⟩ := splitOnChar_mem '=' s.data h
  simp [updateQuery, pySplitEq, hsp]

/-- C2: a well-formed query string whose filter matches zero records makes
`update_record` return a null result with the remote table unchanged (no
remote update call happens). -/
theorem update_record_zero_matches_noop (t : Table) (qs : String)
    (payload : Query) (k v : String)
    (hq : updateQuery qs = some (k, v))
    (hz : get_response t [(k, v)] = []) :
    update_record t qs payload = .ok (none, t) := by
  simp [update_record, hq, updateWithQuery, hz]

/-- Witness for C2: a table whose only record does not match the query. -/
theorem update_record_zero_matches_noop_witness :
    update_record [[("number", "INC2")]] "number=INC23301" [("stage", "accepted")]
      = .ok (none, [[("number", "INC2")]]) :=
  update_record_zero_matches_noop [[("number", "INC2")]] "number=INC23301"
    [("stage", "accepted")] "number" "INC23301" (by decide) (by decide)

/-- C7: a well-formed query string whose filter matches exactly one record
makes `update_record` apply the payload as a partial update to that record
and return the updated record: payload fields read back their payload
values, all other fields keep the record's values. -/
theorem update_record_single_match_updates (t : Table) (qs : String)
    (payload : Query) (k v : String) (r : Record)
    (hq : updateQuery qs = some (k, v))
    (hm : get_response t [(k, v)] = [r]) :
    update_record t qs payload
      = .ok (some (applyPayload payload r), applyUpdate t [(k, v)] payload) ∧
    (∀ f w, lookupLast payload f = some w →
      getField (applyPayload payload r) f = some w) ∧
    (∀ f, lookupLast payload f = none →
      getField (applyPayload payload r) f = getField r f) := by
  refine ⟨by simp [update_record, hq, updateWithQuery, hm], ?_, ?_⟩
  · intro f w hw
    rw [getField_applyPayload, hw]
    rfl
  · intro f hw
    rw [getField_applyPayload, hw]
    rfl

/-- Witness for C7: the spec's fixture — exactly one incident has
`number = INC23301`; the update returns it with `stage = accepted`. -/
theorem update_record_single_match_updates_witness :
    update_record [[("number", "INC23301"), ("stage", "new")], [("number", "INC2")]]
        "number=INC23301" [("stage", "accepted")]
      = .ok (some (applyPayload [("stage", "accepted")]
            [("number", "INC23301"), ("stage", "new")]),
          applyUpdate
            [[("number", "INC23301"), ("stage", "new")], [("number", "INC2")]]
            [("number", "INC23301")] [("stage", "accepted")]) ∧
    getField (applyPayload [("stage", "accepted")]
        [("number", "INC23301"), ("stage", "new")]) "stage" = some "accepted" ∧
    getField (applyPayload [("stage", "accepted")]
        [("number", "INC23301"), ("stage", "new")]) "number" = some "INC23301" :=
  ⟨(update_record_single_match_updates
      [[("number", "INC23301"), ("stage", "new")], [("number", "INC2")]]
      "number=INC23301" [("stage", "accepted")] "number" "INC23301"
      [("number", "INC23301"), ("stage", "new")] (by decide) (by decide)).1,
    (update_record_single_match_updates
      [[("number", "INC23301"), ("stage", "new")], [("number", "INC2")]]
      "number=INC23301" [("stage", "accepted")] "number" "INC23301"
      [("number", "INC23301"), ("stage", "new")] (by decide) (by decide)).2.1
      "stage" "accepted" (by decide),
    (update_record_single_match_updates
      [[("number", "INC23301"), ("stage", "new")], [("number", "INC2")]]
      "number=INC23301" [("stage", "accepted")] "number" "INC23301"
      [("number", "INC23301"), ("stage", "new")] (by decide) (by decide)).2.2
      "number" (by decide)⟩

/-- C9: a query string with no `=` at all makes `update_record` fail with
the unnamed indexing error from the two-element access into the split
result, independently of the remote table and payload (no remote call is
involved: the result is the same for every table). -/
theorem update_record_no_eq_index_error (s : String) (h : '=' ∉ s.data)
    (t : Table) (payload : Query) :
    update_record t s payload = .error .indexError := by
  have hsp := splitOnChar_no_sep '=' s.data h
  simp [update_record, updateQuery, pySplitEq, hsp]

/-- Witness for C9 on a separator-free query string. -/
theorem update_record_no_eq_index_error_witness :
    update_record [[("number", "INC23301")]] "number" [("stage", "accepted")]
      = .error .indexError :=
  update_record_no_eq_index_error "number" (by decide)
    [[("number", "INC23301")]] [("stage", "accepted")]

/-- C4, counterexample: on `"a=b=c"` the code's filter value is `"b"` (the
segment between the first and second `=`), not `"b=c"` (everything after
the first `=`) as the claim states; consequently a record whose field
`"a"` equals `"b=c"` is not matched by the update. -/
theorem update_record_split_counterexample :
    updateQuery "a=b=c" = some ("a", "b") ∧
    updateQuery "a=b=c" ≠ some ("a", "b=c") ∧
    update_record [[("a", "b=c")]] "a=b=c" [("stage", "accepted")]
      = .ok (none, [[("a", "b=c")]]) := by
  decide

/-- C4, amended: for every query string containing at least one `=`,
`update_record` splits it on every `=` and uses as exact-match filter the
single pair whose key is everything before the first `=` and whose value
is the segment strictly between the first `=` and the following `=` (which
is everything after the first `=` only when the string contains exactly
one `=`); the rest of `update_record` runs on that pair. -/
theorem update_record_splits_on_eq (s : String) (h : '=' ∈ s.data) :
    updateQuery s
      = some ((s.data.takeWhile (fun x => x != '=')).asString,
        ((s.data.dropWhile (fun x => x != '=')).tail.takeWhile
          (fun x => x != '=')).asString) ∧
    (∀ t payload, update_record t s payload
      = updateWithQuery t ((s.data.takeWhile (fun x => x != '=')).asString)
          (((s.data.dropWhile (fun x => x != '=')).tail.takeWhile
            (fun x => x != '=')).asString) payload) := by
  have hq := updateQuery_mem_eq s h
  exact ⟨hq, fun t payload => by simp [update_record, hq]⟩

/-- Witness for the amended C4 at `"a=b=c"`. -/
theorem update_record_splits_on_eq_witness :
    updateQuery "a=b=c"
      = some ((("a=b=c" : String).data.takeWhile (fun x => x != '=')).asString,
        ((("a=b=c" : String).data.dropWhile (fun x => x != '=')).tail.takeWhile
          (fun x => x != '=')).asString) :=
  (update_record_splits_on_eq "a=b=c" (by decide)).1

end SnowApi
